import Mathlib

/-!
Shallow embedding of the django-profiles request handlers
(src/profiles/views.py) and form utilities (src/profiles/utils.py).

The framework pieces the views lean on (model metadata, the form classes
produced by form_for_model / form_for_instance, redirect and render
responses, named-route reversal) are embedded as explicit data: a profile
model is its field-name lists plus a validation predicate, a form class is
its base_fields dictionary keys plus that predicate, the database is an
association list from username to profile record, and each handler returns
its response together with the updated database and a trace of the
persistence-relevant actions it performed (resolver call, save calls, user
assignment, save_m2m call).

The body of get_profile_model is imported into views.py from profiles.utils
but is not present under src/ (src/profiles/utils.py only defines
get_profile_form); it is modelled from the specification, section 4.1.
-/

set_option autoImplicit false

/-- HTTP method of a request; the views branch only on POST vs anything else. -/
inductive Method where
  | GET
  | POST
deriving DecidableEq, Repr

/-- Submitted form data (request.POST): field name to submitted value. -/
abbrev PostData := List (String × String)

/-- Lookup in an association list with the empty string as default; embeds
dictionary / attribute access on Django objects whose values we track. -/
def lookupD : List (String × String) → String → String
  | [], _ => ""
  | q :: t, k => if q.1 == k then q.2 else lookupD t k

/-- Overwrite (or append) the value stored under a key; embeds attribute
assignment such as profile_obj.user = request.user. -/
def setField : List (String × String) → String → String → List (String × String)
  | [], k, v => [(k, v)]
  | q :: t, k, v => if q.1 == k then (k, v) :: t else q :: setField t k v

/-- A profile model as the views observe it through the framework: the names
of its scalar fields (opts.fields, which include the mandatory user relation
field), the names of its many-to-many fields (opts.many_to_many), and the
validation predicate that the framework applies to data submitted to a form
generated from this model. -/
structure ProfileModel where
  fields : List String
  many_to_many : List String
  valid : PostData → Bool

/-- A profile record: the model it instantiates and its field values
(field name to value; the owning user is stored under the key "user",
as User.get_profile requires of the profile model). -/
structure Profile where
  model : ProfileModel
  vals : List (String × String)

/-- Embeds f.value_from_object(profile_obj): read one field value off a
profile instance. -/
def value_from_object (profile_obj : Profile) (f : String) : String :=
  lookupD profile_obj.vals f

/-- Embeds get_initial_data (src/profiles/views.py, lines 94-104): for every
field in opts.fields + opts.many_to_many, map the field name to
f.value_from_object(profile_obj). -/
def get_initial_data (profile_obj : Profile) : List (String × String) :=
  (profile_obj.model.fields ++ profile_obj.model.many_to_many).map
    (fun f => (f, value_from_object profile_obj f))

/-- A form class as the views use one: the model it is for, the keys of its
base_fields dictionary, its validation predicate, and whether a save with
commit=False leaves a save_m2m follow-up method on the form (the hasattr
probe in create_profile). -/
structure FormClass where
  model : ProfileModel
  base_fields : List String
  is_valid : PostData → Bool
  has_save_m2m : Bool

/-- Embeds django.newforms.form_for_model: a form class over all of the
model's fields, validating with the model's validators. -/
def form_for_model (m : ProfileModel) : FormClass :=
  { model := m
  , base_fields := m.fields ++ m.many_to_many
  , is_valid := m.valid
  , has_save_m2m := true }

/-- Embeds django.newforms.form_for_instance: a form class over all fields of
the instance's model. -/
def form_for_instance (profile_obj : Profile) : FormClass :=
  { model := profile_obj.model
  , base_fields := profile_obj.model.fields ++ profile_obj.model.many_to_many
  , is_valid := profile_obj.model.valid
  , has_save_m2m := true }

/-- Embeds the statement del form_class.base_fields["user"] that both
create_profile and edit_profile run on the synthesized form class; the
base_fields dictionary has unique keys, so deleting the key "user" removes
exactly the entries named "user". -/
def delUserField (fc : FormClass) : FormClass :=
  { fc with base_fields := fc.base_fields.filter (fun f => f != "user") }

/-- Embeds get_profile_form (src/profiles/utils.py, lines 20-32): a ModelForm
over the profile model with Meta.exclude = ("user",), so its fields are all
model fields except those listed in exclude. It is given the profile
instance directly (the source reads it off the user argument as
user.profile). -/
def get_profile_form (profile_obj : Profile) : FormClass :=
  { model := profile_obj.model
  , base_fields := (profile_obj.model.fields ++ profile_obj.model.many_to_many).filter
      (fun f => !(["user"].contains f))
  , is_valid := profile_obj.model.valid
  , has_save_m2m := true }

/-- A form object as the views instantiate one: the fields of its class, the
bound data (none when instantiated unbound, as in form_class()), the value
of the initial keyword argument (none when not passed), and whether the
bound data failed validation (the form's errors). -/
structure BoundForm where
  fields : List String
  data : Option PostData
  initial : Option (List (String × String))
  errors : Bool

/-- A form bound to submitted data, as in form_class(request.POST, ...);
it carries validation errors exactly when the data is invalid. -/
def mkBound (fc : FormClass) (post : PostData)
    (initial : Option (List (String × String))) : BoundForm :=
  { fields := fc.base_fields
  , data := some post
  , initial := initial
  , errors := !fc.is_valid post }

/-- An unbound form, as in form_class() with no arguments. -/
def mkUnbound (fc : FormClass) : BoundForm :=
  { fields := fc.base_fields, data := none, initial := none, errors := false }

/-- Targets of redirect responses: the named routes the views reverse, the
login redirect issued by the login_required decorator, and a caller-supplied
success_url. -/
inductive Url where
  | login
  | editProfile
  | createProfile
  | profileDetail (username : String)
  | custom (s : String)
deriving DecidableEq, Repr

/-- Template rendering context: the documented context variables (form for
create and edit, profile for edit and detail). -/
structure Context where
  form : Option BoundForm
  profile : Option Profile

/-- A response: a redirect (HttpResponseRedirect), a successful render
(render_to_response, HTTP 200), or a not-found error (Http404, raised by
get_object_or_404 or explicitly). -/
inductive Response where
  | redirect (target : Url)
  | render (template : String) (ctx : Context)
  | http404

/-- The persistence-relevant actions a handler performs, in order: calling
the profile-model resolver, form.save (with its commit argument),
assigning profile_obj.user, profile_obj.save(), and form.save_m2m(). -/
inductive Event where
  | callResolver
  | formSave (commit : Bool)
  | assignUser (username : String)
  | instanceSave
  | saveM2M
deriving DecidableEq, Repr

/-- The database as the views touch it: the set of existing usernames and an
association from username to that user's profile record (one-to-one,
optionally absent, keyed by the owning user). -/
structure World where
  users : List String
  profiles : List (String × Profile)

/-- Embeds request.user.get_profile() / looking up a user's profile: some
profile when one exists, none when ObjectDoesNotExist would be raised. -/
def getProfile (w : World) (username : String) : Option Profile :=
  match w.profiles.find? (fun q => q.1 == username) with
  | some q => some q.2
  | none => none

/-- An incoming request: its method, its POST data, the authenticated user's
username, and whether the requester is authenticated at all (checked by the
login_required decorator on create_profile and edit_profile). -/
structure Request where
  method : Method
  post : PostData
  userName : String
  authenticated : Bool

/-- Modelled from the spec: the single collapsed error kind of the profile
resolver (django.contrib.auth.models.SiteProfileNotAvailable), raised both
when the AUTH_PROFILE_MODULE setting is unset and when it is set but does
not resolve to a registered model; the resolver get_profile_model is
imported into views.py from profiles.utils but its body is absent from
src/, so it and its error are modelled from specification section 4.1. -/
inductive SiteProfileNotAvailable where
  | mk
deriving DecidableEq, Repr

/-- Process configuration: the AUTH_PROFILE_MODULE setting, a single
optional string naming the profile model as "app_label.ModelName". -/
structure Config where
  auth_profile_module : Option String

/-- The registry of installed models, against which the configuration string
is resolved. -/
structure Registry where
  models : List (String × ProfileModel)

/-- Modelled from the spec (section 4.1), the body of get_profile_model being
absent from src/: read the configuration value; if unset, fail with
SiteProfileNotAvailable; if set but not resolving to a registered model,
fail with the same error kind; otherwise return the model. -/
def get_profile_model (cfg : Config) (reg : Registry) :
    Except SiteProfileNotAvailable ProfileModel :=
  match cfg.auth_profile_module with
  | none => Except.error SiteProfileNotAvailable.mk
  | some s =>
    match reg.models.find? (fun q => q.1 == s) with
    | some q => Except.ok q.2
    | none => Except.error SiteProfileNotAvailable.mk

/-- The form class create_profile ends up using: the caller-supplied one when
given, otherwise form_for_model on the resolved profile model with the user
field deleted. -/
def create_form_class (profile_model : ProfileModel) : Option FormClass → FormClass
  | some fc => fc
  | none => delUserField (form_for_model profile_model)

/-- The form class edit_profile ends up using: the caller-supplied one when
given, otherwise form_for_instance on the existing profile object with the
user field deleted. -/
def edit_form_class (profile_obj : Profile) : Option FormClass → FormClass
  | some fc => fc
  | none => delUserField (form_for_instance profile_obj)

/-- Embeds form.save(commit=False) in create_profile for a model form: an
unsaved profile object whose field values are the cleaned form data. -/
def form_save_no_commit (fc : FormClass) (post : PostData) : Profile :=
  { model := fc.model
  , vals := fc.base_fields.map (fun f => (f, lookupD post f)) }

/-- Embeds form.save() in edit_profile for a model form over the existing
instance: each form field's cleaned value is written onto the instance,
which is then saved in place. -/
def form_save_instance (fc : FormClass) (profile_obj : Profile)
    (post : PostData) : Profile :=
  { profile_obj with
    vals := fc.base_fields.foldl (fun vs f => setField vs f (lookupD post f))
      profile_obj.vals }

/-- The profile object persisted by create_profile on a valid POST:
form.save(commit=False) builds it from the cleaned data, then the handler
assigns its user field to the requesting user before the final save. -/
def create_saved_profile (fc : FormClass) (req : Request) : Profile :=
  let profile_obj := form_save_no_commit fc req.post
  { profile_obj with vals := setField profile_obj.vals "user" req.userName }

/-- Result of create_profile: the response (or the uncaught
SiteProfileNotAvailable propagating out of the handler), the database after
the request, and the trace of persistence-relevant actions. -/
abbrev CreateResult :=
  Except SiteProfileNotAvailable Response × World × List Event

/-- Embeds create_profile (src/profiles/views.py, lines 14-92, wrapped in
login_required): redirect to the edit route when the user already has a
profile; otherwise resolve the profile model, default the success URL to the
detail route for the requesting username, default the form class to the
synthesized one with the user field deleted, and branch on the method:
a valid POST saves with commit=False, assigns the user relation, saves the
object, calls save_m2m when present, and redirects to the success URL; an
invalid POST or a non-POST renders the form. -/
def create_profile (cfg : Config) (reg : Registry) (w : World) (req : Request)
    (form_class : Option FormClass) (success_url : Option Url)
    (template_name : String) : CreateResult :=
  if req.authenticated then
    match getProfile w req.userName with
    | some _ => (Except.ok (Response.redirect Url.editProfile), w, [])
    | none =>
      match get_profile_model cfg reg with
      | Except.error e => (Except.error e, w, [Event.callResolver])
      | Except.ok profile_model =>
        let url := match success_url with
          | none => Url.profileDetail req.userName
          | some u => u
        let fc := create_form_class profile_model form_class
        match req.method with
        | Method.POST =>
          if fc.is_valid req.post then
            let profile_obj := create_saved_profile fc req
            let w2 : World :=
              { w with profiles := (req.userName, profile_obj) :: w.profiles }
            (Except.ok (Response.redirect url), w2,
              [Event.callResolver, Event.formSave false,
               Event.assignUser req.userName, Event.instanceSave]
              ++ (if fc.has_save_m2m then [Event.saveM2M] else []))
          else
            (Except.ok (Response.render template_name
                { form := some (mkBound fc req.post none), profile := none }),
             w, [Event.callResolver])
        | Method.GET =>
          (Except.ok (Response.render template_name
              { form := some (mkUnbound fc), profile := none }),
           w, [Event.callResolver])
  else
    (Except.ok (Response.redirect Url.login), w, [])

/-- Result of edit_profile and profile_detail: response, database after the
request, and trace. -/
abbrev EditResult := Response × World × List Event

/-- Embeds edit_profile (src/profiles/views.py, lines 106-167, wrapped in
login_required): redirect to the create route when the user has no profile;
otherwise default the success URL and the form class (form_for_instance with
the user field deleted), and branch on the method: a POST instantiates the
form with the submitted data and initial=get_initial_data(profile_obj), a
valid one calls form.save() and redirects, an invalid one renders the form;
a non-POST instantiates the form with no arguments and renders it. -/
def edit_profile (w : World) (req : Request) (form_class : Option FormClass)
    (success_url : Option Url) (template_name : String) : EditResult :=
  if req.authenticated then
    match getProfile w req.userName with
    | none => (Response.redirect Url.createProfile, w, [])
    | some profile_obj =>
      let url := match success_url with
        | none => Url.profileDetail req.userName
        | some u => u
      let fc := edit_form_class profile_obj form_class
      match req.method with
      | Method.POST =>
        if fc.is_valid req.post then
          let updated := form_save_instance fc profile_obj req.post
          let w2 : World :=
            { w with profiles := (req.userName, updated) :: w.profiles }
          (Response.redirect url, w2, [Event.formSave true])
        else
          (Response.render template_name
            { form := some (mkBound fc req.post
                (some (get_initial_data profile_obj)))
            , profile := some profile_obj },
           w, [])
      | Method.GET =>
        (Response.render template_name
          { form := some (mkUnbound fc), profile := some profile_obj },
         w, [])
  else
    (Response.redirect Url.login, w, [])

/-- Embeds profile_detail (src/profiles/views.py, lines 169-199, no
login_required): get_object_or_404 on the username, then the user's profile
or Http404, then render with the profile in context. The request argument is
only threaded into the template context and does not influence the result. -/
def profile_detail (w : World) (_req : Request) (username : String)
    (template_name : String) : EditResult :=
  if username ∈ w.users then
    match getProfile w username with
    | none => (Response.http404, w, [])
    | some profile_obj =>
      (Response.render template_name
        { form := none, profile := some profile_obj }, w, [])
  else
    (Response.http404, w, [])

/-! Helper lemmas about the association-list primitives. -/

theorem lookupD_setField_self (l : List (String × String)) (k v : String) :
    lookupD (setField l k v) k = v := by
  induction l with
  | nil => simp [setField, lookupD]
  | cons q t ih =>
    by_cases h : q.1 = k
    · simp [setField, h, lookupD]
    · simp [setField, h, lookupD, ih]

theorem lookupD_setField_ne (l : List (String × String)) (k k2 v : String)
    (h : k2 ≠ k) : lookupD (setField l k v) k2 = lookupD l k2 := by
  have h2 : k ≠ k2 := Ne.symm h
  induction l with
  | nil => simp [setField, lookupD, h2]
  | cons q t ih =>
    by_cases hq : q.1 = k
    · simp [setField, hq, lookupD, h2]
    · simp [setField, hq, lookupD, ih]

theorem lookupD_foldl_setField (fields : List String) (post : PostData)
    (k : String) (hk : k ∉ fields) (vs : List (String × String)) :
    lookupD (fields.foldl (fun a f => setField a f (lookupD post f)) vs) k
      = lookupD vs k := by
  induction fields generalizing vs with
  | nil => rfl
  | cons f t ih =>
    have hkf : k ≠ f := fun e => hk (e ▸ List.mem_cons_self f t)
    have hkt : k ∉ t := fun m => hk (List.mem_cons_of_mem f m)
    simp only [List.foldl_cons]
    rw [ih hkt, lookupD_setField_ne _ _ _ _ hkf]

theorem lookupD_map_value (l : List String) (g : String → String) (f : String)
    (h : f ∈ l) : lookupD (l.map (fun x => (x, g x))) f = g f := by
  induction l with
  | nil => cases h
  | cons a t ih =>
    by_cases ha : a = f
    · simp [lookupD, ha]
    · rcases List.mem_cons.mp h with h1 | h2
      · exact absurd h1.symm ha
      · simp [lookupD, ha, ih h2]

theorem user_not_mem_delUserField (fc : FormClass) :
    "user" ∉ (delUserField fc).base_fields := by
  simp [delUserField, List.mem_filter]

theorem map_fst_pairs (l : List String) (g : String → String) :
    (l.map (fun x => (x, g x))).map Prod.fst = l := by
  induction l with
  | nil => rfl
  | cons a t ih => simp [ih]

/-! Concrete fixtures used by the witness and counterexample theorems: a
profile model with a scalar field, a many-to-many field and a validator
requiring a nonempty bio; a profile instance; databases, requests and
configurations exercising each branch. -/

def m0 : ProfileModel :=
  { fields := ["user", "bio"]
  , many_to_many := ["interests"]
  , valid := fun post => lookupD post "bio" != "" }

def p0 : Profile :=
  { model := m0
  , vals := [("user", "alice"), ("bio", "hello"), ("interests", "lean")] }

def wEmpty : World := { users := ["alice", "bob"], profiles := [] }

def wAlice : World := { users := ["alice", "bob"], profiles := [("alice", p0)] }

def reqGet : Request :=
  { method := Method.GET, post := [], userName := "alice", authenticated := true }

def reqPostValid : Request :=
  { method := Method.POST
  , post := [("bio", "hi"), ("interests", "math")]
  , userName := "alice", authenticated := true }

def reqPostInvalid : Request :=
  { method := Method.POST, post := [("bio", "")]
  , userName := "alice", authenticated := true }

def cfgNone : Config := { auth_profile_module := none }

def cfgGood : Config := { auth_profile_module := some "app.Profile" }

def cfgBad : Config := { auth_profile_module := some "app.Missing" }

def reg0 : Registry := { models := [("app.Profile", m0)] }

def fc0 : FormClass :=
  { model := m0, base_fields := ["bio"]
  , is_valid := fun _ => true, has_save_m2m := false }

/-! Claim theorems. -/

/-- C1 counterexample: the claim that create_profile consults the
profile-model resolver only when no explicit form class is given is false:
at a concrete request with an explicit form class supplied (and no existing
profile), the handler's trace contains the resolver call — here the
configuration is even unset, so the call makes the handler fail with
SiteProfileNotAvailable despite the explicit form class. -/
theorem create_profile_resolver_despite_form_class_cex :
    Event.callResolver ∈
      (create_profile cfgNone reg0 wEmpty reqGet (some fc0) none "t").2.2 := by
  have h : (create_profile cfgNone reg0 wEmpty reqGet (some fc0) none "t").2.2
      = [Event.callResolver] := rfl
  rw [h]
  exact List.mem_singleton.mpr rfl

/-- C1 (amended): for every authenticated request by a user without an
existing profile, create_profile invokes the profile-model resolver even
when the caller supplied an explicit form class; the explicit class only
skips synthesizing a form from the resolved model, not the resolution
itself. -/
theorem create_profile_calls_resolver_always
    (cfg : Config) (reg : Registry) (w : World) (req : Request)
    (fc : FormClass) (surl : Option Url) (tn : String)
    (hauth : req.authenticated = true)
    (hnone : getProfile w req.userName = none) :
    Event.callResolver ∈
      (create_profile cfg reg w req (some fc) surl tn).2.2 := by
  rcases hm : get_profile_model cfg reg with e | pm
  · simp [create_profile, hauth, hnone, hm]
  · rcases hmeth : req.method with _ | _
    · simp [create_profile, hauth, hnone, hm, hmeth]
    · by_cases hv : fc.is_valid req.post
      · simp [create_profile, hauth, hnone, hm, hmeth, create_form_class, hv]
      · simp [create_profile, hauth, hnone, hm, hmeth, create_form_class, hv]

/-- C1 witness: the amended theorem applied at a concrete configuration,
database and request. -/
theorem create_profile_calls_resolver_always_witness :
    reqGet.authenticated = true ∧
    getProfile wEmpty reqGet.userName = none ∧
    Event.callResolver ∈
      (create_profile cfgGood reg0 wEmpty reqGet (some fc0) none "t").2.2 :=
  ⟨rfl, rfl,
    create_profile_calls_resolver_always cfgGood reg0 wEmpty reqGet fc0 none "t"
      rfl rfl⟩

/-- C2: for every authenticated user who already has a profile,
create_profile — whatever the method, form class, success URL or
configuration — returns a redirect to the edit-profile route, leaves the
database unchanged and performs no persistence actions (empty trace). -/
theorem create_profile_existing_redirects_to_edit
    (cfg : Config) (reg : Registry) (w : World) (req : Request)
    (fcArg : Option FormClass) (surl : Option Url) (tn : String) (p : Profile)
    (hauth : req.authenticated = true)
    (hp : getProfile w req.userName = some p) :
    create_profile cfg reg w req fcArg surl tn
      = (Except.ok (Response.redirect Url.editProfile), w, []) := by
  simp [create_profile, hauth, hp]

/-- C2 witness: the theorem applied to a user whose profile exists; the
configuration is even unset, showing the redirect precedes resolution. -/
theorem create_profile_existing_redirects_to_edit_witness :
    reqGet.authenticated = true ∧
    getProfile wAlice reqGet.userName = some p0 ∧
    create_profile cfgNone reg0 wAlice reqGet none none "t"
      = (Except.ok (Response.redirect Url.editProfile), wAlice, []) :=
  ⟨rfl, rfl,
    create_profile_existing_redirects_to_edit cfgNone reg0 wAlice reqGet
      none none "t" p0 rfl rfl⟩

/-- C5: for every authenticated user without an existing profile,
edit_profile returns a redirect to the create-profile route regardless of
the request method, with the database unchanged and an empty trace (no form
is built, no data validated or saved). -/
theorem edit_profile_no_profile_redirects_to_create
    (w : World) (req : Request) (fcArg : Option FormClass)
    (surl : Option Url) (tn : String)
    (hauth : req.authenticated = true)
    (hnone : getProfile w req.userName = none) :
    edit_profile w req fcArg surl tn
      = (Response.redirect Url.createProfile, w, []) := by
  simp [edit_profile, hauth, hnone]

/-- C5 witness: the theorem applied at a concrete POST request by a user
without a profile. -/
theorem edit_profile_no_profile_redirects_to_create_witness :
    reqPostValid.authenticated = true ∧
    getProfile wEmpty reqPostValid.userName = none ∧
    edit_profile wEmpty reqPostValid none none "t"
      = (Response.redirect Url.createProfile, wEmpty, []) :=
  ⟨rfl, rfl,
    edit_profile_no_profile_redirects_to_create wEmpty reqPostValid none none "t"
      rfl rfl⟩

/-- C3: for every valid POST to create_profile by a user without a profile
(and no explicit success_url), the response redirects to the profile-detail
route parameterized by the requesting username, the persisted profile's
user field equals the requesting user, and the trace shows
save(commit=False), then the user assignment, then the final save (and the
save_m2m follow-up when the form has one). -/
theorem create_profile_valid_post_persists_user
    (cfg : Config) (reg : Registry) (w : World) (req : Request)
    (fcArg : Option FormClass) (tn : String) (pm : ProfileModel)
    (hauth : req.authenticated = true)
    (hnone : getProfile w req.userName = none)
    (hm : get_profile_model cfg reg = Except.ok pm)
    (hpost : req.method = Method.POST)
    (hvalid : (create_form_class pm fcArg).is_valid req.post = true) :
    (create_profile cfg reg w req fcArg none tn).1
      = Except.ok (Response.redirect (Url.profileDetail req.userName)) ∧
    (∃ q, getProfile (create_profile cfg reg w req fcArg none tn).2.1 req.userName
        = some q ∧ value_from_object q "user" = req.userName) ∧
    (create_profile cfg reg w req fcArg none tn).2.2
      = [Event.callResolver, Event.formSave false,
         Event.assignUser req.userName, Event.instanceSave]
        ++ (if (create_form_class pm fcArg).has_save_m2m
            then [Event.saveM2M] else []) := by
  have hres : create_profile cfg reg w req fcArg none tn
      = (Except.ok (Response.redirect (Url.profileDetail req.userName)),
         { w with profiles :=
            (req.userName, create_saved_profile (create_form_class pm fcArg) req)
              :: w.profiles },
         [Event.callResolver, Event.formSave false,
          Event.assignUser req.userName, Event.instanceSave]
          ++ (if (create_form_class pm fcArg).has_save_m2m
              then [Event.saveM2M] else [])) := by
    simp [create_profile, hauth, hnone, hm, hpost, hvalid]
  refine ⟨by rw [hres], ?_, by rw [hres]⟩
  refine ⟨create_saved_profile (create_form_class pm fcArg) req, ?_, ?_⟩
  · rw [hres]
    simp [getProfile]
  · simp [create_saved_profile, value_from_object, lookupD_setField_self]

/-- C3 witness: the theorem applied at a concrete valid POST by a user
without a profile, with the default (synthesized) form class. -/
theorem create_profile_valid_post_persists_user_witness :
    reqPostValid.authenticated = true ∧
    getProfile wEmpty reqPostValid.userName = none ∧
    get_profile_model cfgGood reg0 = Except.ok m0 ∧
    reqPostValid.method = Method.POST ∧
    (create_form_class m0 none).is_valid reqPostValid.post = true ∧
    (create_profile cfgGood reg0 wEmpty reqPostValid none none "t").1
      = Except.ok (Response.redirect (Url.profileDetail reqPostValid.userName)) :=
  ⟨rfl, rfl, rfl, rfl, rfl,
    (create_profile_valid_post_persists_user cfgGood reg0 wEmpty reqPostValid
      none "t" m0 rfl rfl rfl rfl rfl).1⟩

/-- C4: for every invalid POST to create_profile (user without a profile,
resolver succeeding) and to edit_profile (user with a profile), the handler
returns a rendered response whose context form is bound to the submitted
data and carries the validation errors, the database is unchanged, no save
action appears in the trace, and no exception propagates (create_profile's
result is Except.ok; edit_profile's result type has no exception channel). -/
theorem invalid_post_rerenders_form
    (cfg : Config) (reg : Registry) (w : World) (req : Request)
    (fcArg : Option FormClass) (surl : Option Url) (tn : String)
    (pm : ProfileModel)
    (w2 : World) (req2 : Request) (fcArg2 : Option FormClass)
    (surl2 : Option Url) (tn2 : String) (p2 : Profile)
    (hauth : req.authenticated = true)
    (hnone : getProfile w req.userName = none)
    (hm : get_profile_model cfg reg = Except.ok pm)
    (hpost : req.method = Method.POST)
    (hinv : (create_form_class pm fcArg).is_valid req.post = false)
    (hauth2 : req2.authenticated = true)
    (hp2 : getProfile w2 req2.userName = some p2)
    (hpost2 : req2.method = Method.POST)
    (hinv2 : (edit_form_class p2 fcArg2).is_valid req2.post = false) :
    (create_profile cfg reg w req fcArg surl tn
      = (Except.ok (Response.render tn
          { form := some (mkBound (create_form_class pm fcArg) req.post none)
          , profile := none }),
         w, [Event.callResolver]) ∧
     (mkBound (create_form_class pm fcArg) req.post none).data = some req.post ∧
     (mkBound (create_form_class pm fcArg) req.post none).errors = true) ∧
    (edit_profile w2 req2 fcArg2 surl2 tn2
      = (Response.render tn2
          { form := some (mkBound (edit_form_class p2 fcArg2) req2.post
              (some (get_initial_data p2)))
          , profile := some p2 },
         w2, []) ∧
     (mkBound (edit_form_class p2 fcArg2) req2.post
        (some (get_initial_data p2))).data = some req2.post ∧
     (mkBound (edit_form_class p2 fcArg2) req2.post
        (some (get_initial_data p2))).errors = true) := by
  refine ⟨⟨?_, rfl, ?_⟩, ⟨?_, rfl, ?_⟩⟩
  · simp [create_profile, hauth, hnone, hm, hpost, hinv]
  · simp [mkBound, hinv]
  · simp [edit_profile, hauth2, hp2, hpost2, hinv2]
  · simp [mkBound, hinv2]

/-- C4 witness: the theorem applied at a concrete invalid POST (empty bio)
against both handlers, with the default form class. -/
theorem invalid_post_rerenders_form_witness :
    (create_profile cfgGood reg0 wEmpty reqPostInvalid none none "t"
      = (Except.ok (Response.render "t"
          { form := some (mkBound (create_form_class m0 none)
              reqPostInvalid.post none)
          , profile := none }),
         wEmpty, [Event.callResolver])) ∧
    (mkBound (create_form_class m0 none) reqPostInvalid.post none).errors
      = true ∧
    (edit_profile wAlice reqPostInvalid none none "t"
      = (Response.render "t"
          { form := some (mkBound (edit_form_class p0 none) reqPostInvalid.post
              (some (get_initial_data p0)))
          , profile := some p0 },
         wAlice, [])) ∧
    (mkBound (edit_form_class p0 none) reqPostInvalid.post
      (some (get_initial_data p0))).errors = true := by
  have h := invalid_post_rerenders_form cfgGood reg0 wEmpty reqPostInvalid
    none none "t" m0 wAlice reqPostInvalid none none "t" p0
    rfl rfl rfl rfl rfl rfl rfl rfl rfl
  exact ⟨h.1.1, h.1.2.2, h.2.1, h.2.2.2⟩

/-- C6: the synthesized default form's field set is exactly the model's
fields (scalar and many-to-many) minus the user field, removed
unconditionally, and nothing else is excluded — for the create path
(form_for_model plus the user deletion), for the edit path
(form_for_instance plus the user deletion), and for get_profile_form in
utils.py (ModelForm with exclude containing exactly user). -/
theorem synthesized_form_excludes_exactly_user
    (m : ProfileModel) (p : Profile) (f : String) :
    (f ∈ (delUserField (form_for_model m)).base_fields ↔
      (f ∈ m.fields ++ m.many_to_many ∧ f ≠ "user")) ∧
    (f ∈ (delUserField (form_for_instance p)).base_fields ↔
      (f ∈ p.model.fields ++ p.model.many_to_many ∧ f ≠ "user")) ∧
    (f ∈ (get_profile_form p).base_fields ↔
      (f ∈ p.model.fields ++ p.model.many_to_many ∧ f ≠ "user")) := by
  refine ⟨?_, ?_, ?_⟩ <;>
    simp [delUserField, form_for_model, form_for_instance, get_profile_form,
      List.mem_filter, or_and_right]

/-- C7: edit_profile is asymmetric in initial data: on GET the rendered form
is instantiated unbound, with neither data nor initial; on POST the form is
instantiated with the submitted data together with
initial = get_initial_data(profile_obj) (observable in the re-render on
invalid data), and get_initial_data maps exactly the model's scalar and
many-to-many field names, each to its value read off the current instance. -/
theorem edit_profile_initial_data_asymmetry
    (w : World) (req : Request) (fcArg : Option FormClass) (surl : Option Url)
    (tn : String) (p : Profile)
    (hauth : req.authenticated = true)
    (hp : getProfile w req.userName = some p) :
    (req.method = Method.GET →
      edit_profile w req fcArg surl tn
        = (Response.render tn
            { form := some (mkUnbound (edit_form_class p fcArg))
            , profile := some p }, w, []) ∧
      (mkUnbound (edit_form_class p fcArg)).data = none ∧
      (mkUnbound (edit_form_class p fcArg)).initial = none) ∧
    (req.method = Method.POST →
      (edit_form_class p fcArg).is_valid req.post = false →
      edit_profile w req fcArg surl tn
        = (Response.render tn
            { form := some (mkBound (edit_form_class p fcArg) req.post
                (some (get_initial_data p)))
            , profile := some p }, w, []) ∧
      (mkBound (edit_form_class p fcArg) req.post
        (some (get_initial_data p))).data = some req.post ∧
      (mkBound (edit_form_class p fcArg) req.post
        (some (get_initial_data p))).initial = some (get_initial_data p)) ∧
    ((get_initial_data p).map Prod.fst
      = p.model.fields ++ p.model.many_to_many) ∧
    (∀ f, f ∈ p.model.fields ++ p.model.many_to_many →
      lookupD (get_initial_data p) f = value_from_object p f) := by
  refine ⟨?_, ?_, ?_, ?_⟩
  · intro hget
    exact ⟨by simp [edit_profile, hauth, hp, hget], rfl, rfl⟩
  · intro hpost hinv
    exact ⟨by simp [edit_profile, hauth, hp, hpost, hinv], rfl, rfl⟩
  · exact map_fst_pairs (p.model.fields ++ p.model.many_to_many)
      (value_from_object p)
  · intro f hf
    exact lookupD_map_value _ _ _ hf

/-- C7 witness: the theorem applied at a concrete GET and the initial-data
characterization evaluated on the concrete profile. -/
theorem edit_profile_initial_data_asymmetry_witness :
    (edit_profile wAlice reqGet none none "t"
      = (Response.render "t"
          { form := some (mkUnbound (edit_form_class p0 none))
          , profile := some p0 }, wAlice, [])) ∧
    (mkUnbound (edit_form_class p0 none)).initial = none ∧
    lookupD (get_initial_data p0) "bio" = value_from_object p0 "bio" := by
  have h := edit_profile_initial_data_asymmetry wAlice reqGet none none "t" p0
    rfl rfl
  exact ⟨(h.1 rfl).1, (h.1 rfl).2.2,
    h.2.2.2 "bio" (by simp [m0, p0])⟩

/-- C8: profile_detail ignores the request object (so in particular needs no
authentication), never changes the database, performs no persistence
actions, returns a not-found error when the username does not exist, returns
a not-found error (never a redirect) when the user exists but has no
profile, and otherwise renders the profile. -/
theorem profile_detail_read_only_404s
    (w : World) (r1 r2 : Request) (username tn : String) :
    profile_detail w r1 username tn = profile_detail w r2 username tn ∧
    (profile_detail w r1 username tn).2.1 = w ∧
    (profile_detail w r1 username tn).2.2 = [] ∧
    (username ∉ w.users →
      (profile_detail w r1 username tn).1 = Response.http404) ∧
    (username ∈ w.users → getProfile w username = none →
      (profile_detail w r1 username tn).1 = Response.http404) ∧
    (∀ p, username ∈ w.users → getProfile w username = some p →
      (profile_detail w r1 username tn).1
        = Response.render tn { form := none, profile := some p }) := by
  by_cases hc : username ∈ w.users
  · rcases hg : getProfile w username with _ | p
    · refine ⟨rfl, ?_, ?_, ?_, ?_, ?_⟩ <;> simp [profile_detail, hc, hg]
    · refine ⟨rfl, ?_, ?_, ?_, ?_, ?_⟩ <;> simp [profile_detail, hc, hg]
  · refine ⟨rfl, ?_, ?_, ?_, ?_, ?_⟩ <;> simp [profile_detail, hc]

/-- C8 witness: the theorem applied at a nonexistent username (not found), at
a user without a profile (not found), and at a user with a profile
(rendered). -/
theorem profile_detail_read_only_404s_witness :
    (profile_detail wAlice reqGet "carol" "t").1 = Response.http404 ∧
    (profile_detail wAlice reqGet "bob" "t").1 = Response.http404 ∧
    (profile_detail wAlice reqGet "alice" "t").1
      = Response.render "t" { form := none, profile := some p0 } :=
  ⟨(profile_detail_read_only_404s wAlice reqGet reqGet "carol" "t").2.2.2.1
     (by decide),
   (profile_detail_read_only_404s wAlice reqGet reqGet "bob" "t").2.2.2.2.1
     (by decide) rfl,
   (profile_detail_read_only_404s wAlice reqGet reqGet "alice" "t").2.2.2.2.2
     p0 (by decide) rfl⟩

/-- C9 (spec-modelled resolver): the profile resolver fails with the single
collapsed error kind SiteProfileNotAvailable both when the configuration
value is unset and when it is set but does not resolve to a registered
model — the two failures produce the same error value, the error type
having a single constructor — and create_profile does not catch the error:
whenever resolution fails for a user without a profile, the error is the
handler's result, propagating to the framework. -/
theorem resolver_collapsed_error_propagates
    (reg : Registry) (cfg2 : Config) (s : String)
    (cfg : Config) (w : World) (req : Request) (fcArg : Option FormClass)
    (surl : Option Url) (tn : String) (e : SiteProfileNotAvailable)
    (hs : cfg2.auth_profile_module = some s)
    (hfind : reg.models.find? (fun q => q.1 == s) = none)
    (hauth : req.authenticated = true)
    (hnone : getProfile w req.userName = none)
    (herr : get_profile_model cfg reg = Except.error e) :
    get_profile_model { auth_profile_module := none } reg
      = Except.error SiteProfileNotAvailable.mk ∧
    get_profile_model cfg2 reg = Except.error SiteProfileNotAvailable.mk ∧
    e = SiteProfileNotAvailable.mk ∧
    (create_profile cfg reg w req fcArg surl tn).1 = Except.error e := by
  refine ⟨rfl, ?_, ?_, ?_⟩
  · simp [get_profile_model, hs, hfind]
  · cases e
    rfl
  · simp [create_profile, hauth, hnone, herr]

/-- C9 witness: the theorem applied with a configuration naming an
unregistered model, showing the same error as the unset configuration and
its propagation out of create_profile. -/
theorem resolver_collapsed_error_propagates_witness :
    get_profile_model cfgNone reg0
      = Except.error SiteProfileNotAvailable.mk ∧
    get_profile_model cfgBad reg0
      = Except.error SiteProfileNotAvailable.mk ∧
    (create_profile cfgBad reg0 wEmpty reqGet none none "t").1
      = Except.error SiteProfileNotAvailable.mk := by
  have h := resolver_collapsed_error_propagates reg0 cfgBad "app.Missing"
    cfgBad wEmpty reqGet none none "t" SiteProfileNotAvailable.mk
    rfl rfl rfl rfl rfl
  exact ⟨h.1, h.2.1, h.2.2.2⟩

/-- C10: for every valid POST to edit_profile by a user with a profile, the
trace is exactly one form.save() call — no user assignment and no save_m2m
follow-up ever appears (unlike create_profile) — and, with the default
synthesized form class (which excludes the user field), the stored profile
after the edit has the same user field value as before. -/
theorem edit_profile_save_preserves_user
    (w : World) (req : Request) (surl : Option Url) (tn : String)
    (fcArg : Option FormClass) (p : Profile)
    (hauth : req.authenticated = true)
    (hp : getProfile w req.userName = some p)
    (hpost : req.method = Method.POST)
    (hvalid : (edit_form_class p fcArg).is_valid req.post = true) :
    (edit_profile w req fcArg surl tn).2.2 = [Event.formSave true] ∧
    (∀ u, Event.assignUser u ∉ (edit_profile w req fcArg surl tn).2.2) ∧
    Event.saveM2M ∉ (edit_profile w req fcArg surl tn).2.2 ∧
    (fcArg = none →
      ∃ q, getProfile (edit_profile w req fcArg surl tn).2.1 req.userName
          = some q ∧
        value_from_object q "user" = value_from_object p "user") := by
  have hres : edit_profile w req fcArg surl tn
      = (Response.redirect (match surl with
          | none => Url.profileDetail req.userName
          | some u => u),
         { w with profiles :=
            (req.userName, form_save_instance (edit_form_class p fcArg) p req.post)
              :: w.profiles },
         [Event.formSave true]) := by
    simp [edit_profile, hauth, hp, hpost, hvalid]
  refine ⟨by rw [hres], ?_, by rw [hres]; simp, ?_⟩
  · intro u
    rw [hres]
    simp
  · intro hdef
    subst hdef
    refine ⟨form_save_instance (edit_form_class p none) p req.post, ?_, ?_⟩
    · rw [hres]
      simp [getProfile]
    · simp only [value_from_object, form_save_instance]
      exact lookupD_foldl_setField _ _ _ (user_not_mem_delUserField _) _

/-- C10 witness: the theorem applied at a concrete valid POST edit with the
default form class; the stored profile's user value survives the edit. -/
theorem edit_profile_save_preserves_user_witness :
    (edit_profile wAlice reqPostValid none none "t").2.2
      = [Event.formSave true] ∧
    Event.saveM2M ∉ (edit_profile wAlice reqPostValid none none "t").2.2 ∧
    (∃ q, getProfile (edit_profile wAlice reqPostValid none none "t").2.1
        reqPostValid.userName = some q ∧
      value_from_object q "user" = value_from_object p0 "user") := by
  have h := edit_profile_save_preserves_user wAlice reqPostValid none "t" none p0
    rfl rfl rfl rfl
  exact ⟨h.1, h.2.2.1, h.2.2.2 rfl⟩
